import Mathlib

/-!
Shallow embedding of `src/plot.js` (the `Plot` canvas-plotter helper).

Modelling conventions:
* JS numbers are modelled as `ℚ` (the claims only involve additive and
  halving arithmetic; no NaN/Infinity arises in them).
* The canvas 2d context is modelled as a command trace: every call the
  plotter issues to the underlying surface is appended to `cmds`.
* A constructor whose `document.getElementById` lookup fails leaves
  `hasCanvas = false`; a canvas without a usable 2d context leaves
  `hasContext = false`.  A method that dereferences the absent
  `this.canvas` / `this.context` throws a TypeError; since JS mutations
  made before the throw persist, such a method is modelled as
  `PlotState → Except PlotState PlotState`, where `Except.error s`
  carries the state at the moment of the throw.
* In the source the constructor aliases `this.lastPoint` and
  `this.origin` to one object, but every later update reassigns
  `this.lastPoint` to a freshly allocated object and no code writes to
  the fields of an existing point, so the two are modelled as separate
  fields.
* A JS optional numeric argument is an `Option ℚ` (`none` = `undefined`);
  the idiom `v || d` on numbers is `jsOrQ`, which yields the default both
  for `undefined` and for the falsy value `0`.
-/

/-- A 2D point, `{x, y}` in the source. -/
structure Point where
  x : ℚ
  y : ℚ
  deriving Repr, DecidableEq

/-- A rounded-rectangle descriptor as stored in `this.rects` by `roundRect`. -/
structure RectDesc where
  width : ℚ
  height : ℚ
  radius : ℚ
  x : ℚ
  y : ℚ
  deriving Repr, DecidableEq

/-- One command issued to the underlying canvas 2d context (or canvas element). -/
inductive Cmd where
  | moveTo (x y : ℚ)
  | lineTo (x y : ℚ)
  | arc (x y r a1 a2 : ℚ) (ccw : Bool)
  | arcTo (x1 y1 x2 y2 r : ℚ)
  | quadraticCurveTo (cpx cpy x y : ℚ)
  | beginPath
  | stroke
  | fill
  | closePath
  | strokeRect (x y w h : ℚ)
  | strokeText (t : String) (x y : ℚ)
  | setStrokeStyle (c : String)
  | setLineWidth (w : ℚ)
  | clearAll
  deriving Repr, DecidableEq

/-- The state of a `Plot` instance, together with the trace `cmds` of
commands it has issued to the underlying surface. -/
structure PlotState where
  lastPoint : Point
  origin : Point
  isDrawing : Bool
  hasCanvas : Bool
  hasContext : Bool
  canvasWidth : ℚ
  canvasHeight : ℚ
  rects : List (String × RectDesc)
  cmds : List Cmd
  deriving Repr, DecidableEq

/-- The JS idiom `v || d` on a numeric argument `v` (`none` = `undefined`):
the default is taken for `undefined` and for the falsy number `0`. -/
def jsOrQ (v : Option ℚ) (d : ℚ) : ℚ :=
  match v with
  | none => d
  | some q => if q = 0 then d else q

/-- The JS idiom `v || d` on a string argument (falsy when empty). -/
def jsOrS (v : Option String) (d : String) : String :=
  match v with
  | none => d
  | some t => if t = "" then d else t

/-- Append one issued command to the trace. -/
def emit (s : PlotState) (c : Cmd) : PlotState :=
  { s with cmds := s.cmds ++ [c] }

/-- The plotter state after a call, whether it returned (`ok`) or threw
(`error`): JS keeps the mutations made before the throw. -/
def outState : Except PlotState PlotState → PlotState
  | .ok s => s
  | .error s => s

/-- The constructor `Plot(id, lineColor, lineWidth)`: pen and origin start
at `(0,0)`, `isDrawing` is `false`; if the canvas lookup and `getContext`
succeed the stroke style (default `"#000"`) and line width (default `1`)
are applied to the context. -/
def mkPlot (canvasFound contextOk : Bool) (canvasWidth canvasHeight : ℚ)
    (lineColor : Option String) (lineWidth : Option ℚ) : PlotState :=
  let s0 : PlotState :=
    { lastPoint := ⟨0, 0⟩
      origin := ⟨0, 0⟩
      isDrawing := false
      hasCanvas := canvasFound
      hasContext := canvasFound && contextOk
      canvasWidth := canvasWidth
      canvasHeight := canvasHeight
      rects := []
      cmds := [] }
  if s0.hasContext then
    emit (emit s0 (.setStrokeStyle (jsOrS lineColor "#000"))) (.setLineWidth (jsOrQ lineWidth 1))
  else s0

/-- `updateLastPoint(x, y, absolute)`: absolute replaces `lastPoint` by
`(x, y)`; otherwise the new point is `(x + lastPoint.x, y + lastPoint.y)`.
Touches no other field. -/
def updateLastPoint (x y : ℚ) (absolute : Bool) (s : PlotState) : PlotState :=
  { s with
    lastPoint :=
      if absolute then ⟨x, y⟩ else ⟨x + s.lastPoint.x, y + s.lastPoint.y⟩ }

/-- `move(x, y, absolute)`: first `updateLastPoint`, then
`context.moveTo(lastPoint)`.  With no context the `moveTo` dereference
throws, after `lastPoint` was already updated. -/
def move (x y : ℚ) (absolute : Bool) (s : PlotState) : Except PlotState PlotState :=
  let s1 := updateLastPoint x y absolute s
  if s1.hasContext then .ok (emit s1 (.moveTo s1.lastPoint.x s1.lastPoint.y))
  else .error s1

/-- `hmove(x)`: `move(x, 0)` with `absolute` left `undefined` (falsy). -/
def hmove (x : ℚ) (s : PlotState) : Except PlotState PlotState :=
  move x 0 false s

/-- `vmove(y)`: `move(0, y)` with `absolute` left `undefined` (falsy). -/
def vmove (y : ℚ) (s : PlotState) : Except PlotState PlotState :=
  move 0 y false s

/-- `home()`: `updateLastPoint(origin.x, origin.y, true)` then
`context.moveTo(lastPoint)`. -/
def home (s : PlotState) : Except PlotState PlotState :=
  let s1 := updateLastPoint s.origin.x s.origin.y true s
  if s1.hasContext then .ok (emit s1 (.moveTo s1.lastPoint.x s1.lastPoint.y))
  else .error s1

/-- `line(x, y)`: relative `updateLastPoint` (the source passes no
`absolute`, so it is falsy) then `context.lineTo(lastPoint)`. -/
def line (x y : ℚ) (s : PlotState) : Except PlotState PlotState :=
  let s1 := updateLastPoint x y false s
  if s1.hasContext then .ok (emit s1 (.lineTo s1.lastPoint.x s1.lastPoint.y))
  else .error s1

/-- `stroke()`: pass-through to `context.stroke()`. -/
def stroke (s : PlotState) : Except PlotState PlotState :=
  if s.hasContext then .ok (emit s .stroke) else .error s

/-- `fill()`: pass-through to `context.fill()`. -/
def fill (s : PlotState) : Except PlotState PlotState :=
  if s.hasContext then .ok (emit s .fill) else .error s

/-- `hline(x)`: `line(x, 0)`. -/
def hline (x : ℚ) (s : PlotState) : Except PlotState PlotState :=
  line x 0 s

/-- `vline(y)`: `line(0, y)`. -/
def vline (y : ℚ) (s : PlotState) : Except PlotState PlotState :=
  line 0 y s

/-- The free identifier `c` used by `arc` (line 175 of the source).  No
code in the repository binds a global `c` — `Plot.convert = Math.PI/180`
is defined but never referenced — so the lookup finds nothing and the
multiplication `startAngle * c` throws a ReferenceError. -/
def globalC : Option ℚ := none

/-- `arc(x, y, r, startAngle, endAngle)`: evaluates `this.context.arc`
(a TypeError when the context is absent), then the arguments
`startAngle * c`, `endAngle * c` (a ReferenceError, `c` being unbound),
and only then would issue the arc command with `counterclockwise = false`.
Either way the call throws before mutating any plotter field. -/
def arc (x y r startAngle endAngle : ℚ) (s : PlotState) : Except PlotState PlotState :=
  if s.hasContext then
    match globalC with
    | some k => .ok (emit s (.arc x y r (startAngle * k) (endAngle * k) false))
    | none => .error s
  else .error s

/-- `arcTo(ax, ay, r)`: issues `context.arcTo(lp.x, lp.y, lp.x+ax, lp.y+ay, r)`
then relative-updates `lastPoint` by `(ax, ay)`. -/
def arcTo (ax ay r : ℚ) (s : PlotState) : Except PlotState PlotState :=
  let lp := s.lastPoint
  if s.hasContext then
    .ok (updateLastPoint ax ay false (emit s (.arcTo lp.x lp.y (lp.x + ax) (lp.y + ay) r)))
  else .error s

/-- `ne(r)`: `quadraticCurveTo(x, y-r, x+r, y-r)` then `move(r, -r)`. -/
def ne (r : ℚ) (s : PlotState) : Except PlotState PlotState :=
  let x := s.lastPoint.x
  let y := s.lastPoint.y
  if s.hasContext then
    move r (-r) false (emit s (.quadraticCurveTo x (y - r) (x + r) (y - r)))
  else .error s

/-- `se(r)`: `quadraticCurveTo(x, y+r, x+r, y+r)` then `move(r, r)`. -/
def se (r : ℚ) (s : PlotState) : Except PlotState PlotState :=
  let x := s.lastPoint.x
  let y := s.lastPoint.y
  if s.hasContext then
    move r r false (emit s (.quadraticCurveTo x (y + r) (x + r) (y + r)))
  else .error s

/-- `nw(r)`: `quadraticCurveTo(x, y-r, x-r, y-r)` then `move(-r, -r)`. -/
def nw (r : ℚ) (s : PlotState) : Except PlotState PlotState :=
  let x := s.lastPoint.x
  let y := s.lastPoint.y
  if s.hasContext then
    move (-r) (-r) false (emit s (.quadraticCurveTo x (y - r) (x - r) (y - r)))
  else .error s

/-- `sw(r)`: `quadraticCurveTo(x, y+r, x-r, y+r)` then `move(-r, r)`. -/
def sw (r : ℚ) (s : PlotState) : Except PlotState PlotState :=
  let x := s.lastPoint.x
  let y := s.lastPoint.y
  if s.hasContext then
    move (-r) r false (emit s (.quadraticCurveTo x (y + r) (x - r) (y + r)))
  else .error s

/-- `wn(r)`: `quadraticCurveTo(x-r, y, x-r, y-r)` then `move(-r, -r)`. -/
def wn (r : ℚ) (s : PlotState) : Except PlotState PlotState :=
  let x := s.lastPoint.x
  let y := s.lastPoint.y
  if s.hasContext then
    move (-r) (-r) false (emit s (.quadraticCurveTo (x - r) y (x - r) (y - r)))
  else .error s

/-- `ws(r)`: `quadraticCurveTo(x-r, y, x-r, y+r)` then `move(-r, r)`. -/
def ws (r : ℚ) (s : PlotState) : Except PlotState PlotState :=
  let x := s.lastPoint.x
  let y := s.lastPoint.y
  if s.hasContext then
    move (-r) r false (emit s (.quadraticCurveTo (x - r) y (x - r) (y + r)))
  else .error s

/-- `en(r)`: `quadraticCurveTo(x+r, y, x+r, y-r)` then `move(r, -r)`. -/
def en (r : ℚ) (s : PlotState) : Except PlotState PlotState :=
  let x := s.lastPoint.x
  let y := s.lastPoint.y
  if s.hasContext then
    move r (-r) false (emit s (.quadraticCurveTo (x + r) y (x + r) (y - r)))
  else .error s

/-- `es(r)`: `quadraticCurveTo(x+r, y, x+r, y+r)` then `move(r, r)`. -/
def es (r : ℚ) (s : PlotState) : Except PlotState PlotState :=
  let x := s.lastPoint.x
  let y := s.lastPoint.y
  if s.hasContext then
    move r r false (emit s (.quadraticCurveTo (x + r) y (x + r) (y + r)))
  else .error s

/-- `getCenter()`: `(canvas.width/2, canvas.height/2)`; dereferences
`this.canvas`, so it throws when the canvas lookup failed. -/
def getCenter (s : PlotState) : Option Point :=
  if s.hasCanvas then some ⟨s.canvasWidth / 2, s.canvasHeight / 2⟩ else none

/-- `centerRect(w, h)`: `h = h || w`, then
`context.strokeRect(center.x - w/2, center.y - h/2, w, h)`. -/
def centerRect (w : ℚ) (hOpt : Option ℚ) (s : PlotState) : Except PlotState PlotState :=
  match getCenter s with
  | none => .error s
  | some c =>
    let h := jsOrQ hOpt w
    if s.hasContext then .ok (emit s (.strokeRect (c.x - w / 2) (c.y - h / 2) w h))
    else .error s

/-- `setLineColor(color)`: `context.strokeStyle = color`. -/
def setLineColor (color : String) (s : PlotState) : Except PlotState PlotState :=
  if s.hasContext then .ok (emit s (.setStrokeStyle color)) else .error s

/-- `setLineWidth(width)`: `context.lineWidth = width`. -/
def setLineWidth (width : ℚ) (s : PlotState) : Except PlotState PlotState :=
  if s.hasContext then .ok (emit s (.setLineWidth width)) else .error s

/-- `center()`: `getCenter()` then `move(center.x, center.y, true)`. -/
def center (s : PlotState) : Except PlotState PlotState :=
  match getCenter s with
  | none => .error s
  | some c => move c.x c.y true s

/-- `begin()`: `context.beginPath()`. -/
def begin (s : PlotState) : Except PlotState PlotState :=
  if s.hasContext then .ok (emit s .beginPath) else .error s

/-- `start()`: `this.move(0, 0)` — with `absolute` left `undefined`, hence
a relative move — then `this.begin()`. -/
def start (s : PlotState) : Except PlotState PlotState :=
  move 0 0 false s >>= begin

/-- `end(closePath)`: `context.stroke()`; `closePath()` when requested;
clears `isDrawing` if it was set.  (`end` is a Lean keyword, hence the
name `endPath`.) -/
def endPath (closePath : Bool) (s : PlotState) : Except PlotState PlotState :=
  if s.hasContext then
    let s1 := emit s .stroke
    let s2 := if closePath then emit s1 .closePath else s1
    .ok (if s2.isDrawing then { s2 with isDrawing := false } else s2)
  else .error s

/-- `reset()`: the `canvas.width = canvas.width` wipe hack (the width is
unchanged; all pixel content is cleared). -/
def reset (s : PlotState) : Except PlotState PlotState :=
  if s.hasCanvas then .ok (emit s .clearAll) else .error s

/-- `point()`: `begin()`, `context.strokeText(".", lastPoint)`, `end()`
(with `closePath` left `undefined`, i.e. falsy). -/
def point (s : PlotState) : Except PlotState PlotState :=
  begin s >>= fun s1 =>
    if s1.hasContext then
      endPath false (emit s1 (.strokeText "." s1.lastPoint.x s1.lastPoint.y))
    else .error s1

/-- First-match lookup in the rectangle registry; `roundRect` conses the
new entry at the front, so the most recent write for an id wins. -/
def lookupRect (l : List (String × RectDesc)) (id : String) : Option RectDesc :=
  match l with
  | [] => none
  | (k, v) :: rest => if k = id then some v else lookupRect rest id

/-- `roundRect(width, height, radius, x, y, id)`: `getCenter()` (throws
without a canvas), defaulting `x`/`y` by the falsy `||` idiom, records the
descriptor under `this.rects[id]`, then draws
`start().move(x,y,true).hline(w-2r).es(r).vline(h-2r).sw(r).hline(-(w-2r)).wn(r).vline(-(h-2r)).ne(r).end()`. -/
def roundRect (width height radius : ℚ) (xOpt yOpt : Option ℚ) (id : String)
    (s : PlotState) : Except PlotState PlotState :=
  match getCenter s with
  | none => .error s
  | some c =>
    let x := jsOrQ xOpt (c.x - width / 2 + radius)
    let y := jsOrQ yOpt (c.y - height / 2)
    let s1 := { s with
      rects := (id, ⟨width, height, radius, x, y⟩) :: s.rects }
    start s1 >>= move x y true >>= hline (width - radius - radius) >>=
      es radius >>= vline (height - radius - radius) >>= sw radius >>=
      hline (-width + radius + radius) >>= wn radius >>=
      vline (-height + radius + radius) >>= ne radius >>= endPath false

/-- A plotter whose surface lookup and `getContext` both succeeded, on a
200×100 canvas with default style. -/
def okPlot : PlotState := mkPlot true true 200 100 none none

/-- A plotter whose `document.getElementById` lookup failed: no canvas,
no context. -/
def failedPlot : PlotState := mkPlot false false 200 100 none none

/-- `true` iff the call threw (returned by `Except.error`). -/
def isErr : Except PlotState PlotState → Bool
  | .ok _ => false
  | .error _ => true

/-- One public `Plot` method call together with its arguments (queries
like `getCenter` and `loc` are omitted: they do not touch the state). -/
inductive Op where
  | move (x y : ℚ) (absolute : Bool)
  | hmove (x : ℚ)
  | vmove (y : ℚ)
  | home
  | line (x y : ℚ)
  | hline (x : ℚ)
  | vline (y : ℚ)
  | stroke
  | fill
  | arc (x y r a1 a2 : ℚ)
  | arcTo (ax ay r : ℚ)
  | ne (r : ℚ)
  | se (r : ℚ)
  | nw (r : ℚ)
  | sw (r : ℚ)
  | wn (r : ℚ)
  | ws (r : ℚ)
  | en (r : ℚ)
  | es (r : ℚ)
  | centerRect (w : ℚ) (h : Option ℚ)
  | setLineColor (c : String)
  | setLineWidth (w : ℚ)
  | center
  | begin
  | start
  | endPath (closePath : Bool)
  | reset
  | point
  | roundRect (w h r : ℚ) (x y : Option ℚ) (id : String)

/-- The plotter state after one method call — the returned state when the
call succeeds, the state at the throw when it fails. -/
def applyOp : Op → PlotState → PlotState
  | .move x y a, s => outState (move x y a s)
  | .hmove x, s => outState (hmove x s)
  | .vmove y, s => outState (vmove y s)
  | .home, s => outState (home s)
  | .line x y, s => outState (line x y s)
  | .hline x, s => outState (hline x s)
  | .vline y, s => outState (vline y s)
  | .stroke, s => outState (stroke s)
  | .fill, s => outState (fill s)
  | .arc x y r a1 a2, s => outState (arc x y r a1 a2 s)
  | .arcTo ax ay r, s => outState (arcTo ax ay r s)
  | .ne r, s => outState (ne r s)
  | .se r, s => outState (se r s)
  | .nw r, s => outState (nw r s)
  | .sw r, s => outState (sw r s)
  | .wn r, s => outState (wn r s)
  | .ws r, s => outState (ws r s)
  | .en r, s => outState (en r s)
  | .es r, s => outState (es r s)
  | .centerRect w h, s => outState (centerRect w h s)
  | .setLineColor c, s => outState (setLineColor c s)
  | .setLineWidth w, s => outState (setLineWidth w s)
  | .center, s => outState (center s)
  | .begin, s => outState (begin s)
  | .start, s => outState (start s)
  | .endPath b, s => outState (endPath b s)
  | .reset, s => outState (reset s)
  | .point, s => outState (point s)
  | .roundRect w h r x y id, s => outState (roundRect w h r x y id s)

/-- The plotter state after a sequence of method calls. -/
def runOps (ops : List Op) (s : PlotState) : PlotState :=
  ops.foldl (fun t op => applyOp op t) s

/-- The fields no `Plot` method ever changes, plus the fact that
`isDrawing` is only ever cleared, never set. -/
def framePreserved (s t : PlotState) : Prop :=
  t.origin = s.origin ∧
  t.hasCanvas = s.hasCanvas ∧
  t.hasContext = s.hasContext ∧
  t.canvasWidth = s.canvasWidth ∧
  t.canvasHeight = s.canvasHeight ∧
  (t.isDrawing = true → s.isDrawing = true)

@[simp]
theorem outState_ok (s : PlotState) : outState (.ok s) = s := rfl

@[simp]
theorem outState_error (s : PlotState) : outState (.error s) = s := rfl

@[simp]
theorem except_bind_ok (a : PlotState) (f : PlotState → Except PlotState PlotState) :
    (Except.ok a >>= f : Except PlotState PlotState) = f a := rfl

@[simp]
theorem except_bind_error (a : PlotState) (f : PlotState → Except PlotState PlotState) :
    (Except.error a >>= f : Except PlotState PlotState) = Except.error a := rfl

/-- C1: `move(dx, dy, false)` sets `lastPoint` to the prior `lastPoint`
plus `(dx, dy)` component-wise, `move(dx, dy, true)` sets it to exactly
`(dx, dy)`, and in both cases every other plotter field (`origin`,
`isDrawing`, the canvas/context handles and dimensions, and the
rectangle registry) is unchanged — whether or not the surface call
succeeds. -/
theorem move_updates_lastPoint (s : PlotState) (dx dy : ℚ) :
    (outState (move dx dy false s)).lastPoint
        = ⟨s.lastPoint.x + dx, s.lastPoint.y + dy⟩ ∧
    (outState (move dx dy true s)).lastPoint = ⟨dx, dy⟩ ∧
    (∀ a : Bool,
      (outState (move dx dy a s)).origin = s.origin ∧
      (outState (move dx dy a s)).isDrawing = s.isDrawing ∧
      (outState (move dx dy a s)).hasCanvas = s.hasCanvas ∧
      (outState (move dx dy a s)).hasContext = s.hasContext ∧
      (outState (move dx dy a s)).canvasWidth = s.canvasWidth ∧
      (outState (move dx dy a s)).canvasHeight = s.canvasHeight ∧
      (outState (move dx dy a s)).rects = s.rects) := by
  refine ⟨?_, ?_, fun a => ?_⟩ <;>
    cases hc : s.hasContext <;>
      simp [move, updateLastPoint, emit, hc, add_comm]

/-- C2 (counterexample): on a plotter whose surface lookup failed,
`move(1, 2, false)` does fail (the `context.moveTo` dereference throws),
but it is not side-effect free: `lastPoint` has already been updated
from `(0,0)` to `(1,2)` when the throw happens. -/
theorem failed_lookup_move_cex :
    isErr (move 1 2 false failedPlot) = true ∧
    failedPlot.lastPoint = ⟨0, 0⟩ ∧
    (outState (move 1 2 false failedPlot)).lastPoint = ⟨1, 2⟩ := by
  refine ⟨?_, ?_, ?_⟩ <;>
    norm_num [failedPlot, mkPlot, move, updateLastPoint, emit, isErr]

/-- C2 (amended): a constructor whose lookup fails leaves the context
handle unset, and on a context-less plotter `move` and `line` throw —
but only after mutating `lastPoint` — while `stroke`, `begin`, `arc` and
`arcTo` throw with the plotter state untouched. -/
theorem failed_lookup_drawing_calls
    (s : PlotState) (dx dy r a1 a2 : ℚ) (ab : Bool)
    (hc : s.hasContext = false) :
    (∀ b w h col lw, (mkPlot false b w h col lw).hasContext = false) ∧
    move dx dy ab s = Except.error (updateLastPoint dx dy ab s) ∧
    line dx dy s = Except.error (updateLastPoint dx dy false s) ∧
    stroke s = Except.error s ∧
    begin s = Except.error s ∧
    arc dx dy r a1 a2 s = Except.error s ∧
    arcTo dx dy r s = Except.error s := by
  refine ⟨fun b w h col lw => ?_, ?_, ?_, ?_, ?_, ?_, ?_⟩ <;>
    simp [mkPlot, move, line, stroke, begin, arc, arcTo, updateLastPoint, emit, hc, globalC]

/-- C2 (amended, witness). -/
theorem failed_lookup_drawing_calls_witness :
    failedPlot.hasContext = false ∧
    move 1 2 false failedPlot = Except.error (updateLastPoint 1 2 false failedPlot) :=
  ⟨by decide, (failed_lookup_drawing_calls failedPlot 1 2 3 0 90 false (by decide)).2.1⟩

/-- C3: `arc` never issues an arc command.  The source multiplies the
angles by the unbound identifier `c` (`Plot.convert = Math.PI/180` exists
but is never used), so every call throws — a ReferenceError when the
context exists, a TypeError on the context dereference otherwise — and
the state, trace included, is exactly as before the call.  In particular
the concrete call `arc(10, 20, 5, 0, 90)` on a validly constructed
plotter emits nothing. -/
theorem arc_always_throws (s : PlotState) (x y r a1 a2 : ℚ) :
    arc x y r a1 a2 s = Except.error s ∧
    (outState (arc 10 20 5 0 90 okPlot)).cmds = okPlot.cmds := by
  have h : ∀ (t : PlotState) (u v w p q : ℚ), arc u v w p q t = Except.error t := by
    intro t u v w p q
    cases hc : t.hasContext <;> simp [arc, globalC, hc]
  exact ⟨h s x y r a1 a2, by rw [h okPlot 10 20 5 0 90]; rfl⟩

/-- C4 (counterexample): after absolutely moving the pen to `(5, 7)`,
`start()` leaves `lastPoint` at `(5, 7)` — it does not set it to `(0, 0)`,
because the source calls `move(0, 0)` with `absolute` left undefined,
i.e. a relative move. -/
theorem start_cex :
    (outState (start (outState (move 5 7 true okPlot)))).lastPoint = ⟨5, 7⟩ ∧
    (Point.mk 5 7 ≠ ⟨0, 0⟩) := by
  constructor
  · norm_num [okPlot, mkPlot, start, move, begin, updateLastPoint, emit, jsOrS, jsOrQ]
  · simp [Point.mk.injEq]

/-- C4 (amended): `start()` performs a relative `move(0, 0)` — leaving
`lastPoint` unchanged while re-syncing the surface cursor to it — and
then opens a new path; it is observationally equivalent to
`move(0, 0, false)` followed by `begin()`, not to `move(0, 0, true)`
followed by `begin()`. -/
theorem start_keeps_lastPoint (s : PlotState) (hc : s.hasContext = true) :
    start s = move 0 0 false s >>= begin ∧
    (outState (start s)).lastPoint = s.lastPoint ∧
    (outState (start s)).cmds
      = s.cmds ++ [Cmd.moveTo s.lastPoint.x s.lastPoint.y, Cmd.beginPath] ∧
    (outState (start s)).origin = s.origin ∧
    (outState (start s)).isDrawing = s.isDrawing ∧
    (outState (start s)).rects = s.rects := by
  refine ⟨rfl, ?_, ?_, ?_, ?_, ?_⟩ <;>
    simp [start, move, begin, updateLastPoint, emit, hc, Except.bind]

/-- C4 (amended, witness). -/
theorem start_keeps_lastPoint_witness :
    okPlot.hasContext = true ∧
    (outState (start okPlot)).lastPoint = okPlot.lastPoint :=
  ⟨by decide, (start_keeps_lastPoint okPlot (by decide)).2.1⟩

/-- C5: each compass corner helper leaves `lastPoint` at the prior pen
position plus its table offset: `ne`/`en` at `(x+r, y-r)`, `se`/`es` at
`(x+r, y+r)`, `nw`/`wn` at `(x-r, y-r)`, `sw`/`ws` at `(x-r, y+r)`. -/
theorem corner_helpers_offsets (s : PlotState) (r : ℚ) (hc : s.hasContext = true) :
    (outState (ne r s)).lastPoint = ⟨s.lastPoint.x + r, s.lastPoint.y - r⟩ ∧
    (outState (en r s)).lastPoint = ⟨s.lastPoint.x + r, s.lastPoint.y - r⟩ ∧
    (outState (se r s)).lastPoint = ⟨s.lastPoint.x + r, s.lastPoint.y + r⟩ ∧
    (outState (es r s)).lastPoint = ⟨s.lastPoint.x + r, s.lastPoint.y + r⟩ ∧
    (outState (nw r s)).lastPoint = ⟨s.lastPoint.x - r, s.lastPoint.y - r⟩ ∧
    (outState (wn r s)).lastPoint = ⟨s.lastPoint.x - r, s.lastPoint.y - r⟩ ∧
    (outState (sw r s)).lastPoint = ⟨s.lastPoint.x - r, s.lastPoint.y + r⟩ ∧
    (outState (ws r s)).lastPoint = ⟨s.lastPoint.x - r, s.lastPoint.y + r⟩ := by
  refine ⟨?_, ?_, ?_, ?_, ?_, ?_, ?_, ?_⟩ <;>
    simp [ne, en, se, es, nw, wn, sw, ws, move, updateLastPoint, emit, hc,
      Point.mk.injEq, add_comm, sub_eq_neg_add]

/-- C5 (witness): from `(0, 0)` with `r = 3`, `ne` leaves the pen at
`(3, -3)`. -/
theorem corner_helpers_offsets_witness :
    okPlot.hasContext = true ∧
    (outState (ne 3 okPlot)).lastPoint = ⟨3, -3⟩ := by
  refine ⟨by decide, ?_⟩
  have h := (corner_helpers_offsets okPlot 3 (by decide)).1
  rw [h]
  norm_num [okPlot, mkPlot, emit, jsOrS, jsOrQ]

theorem rects_outState_bind (e : Except PlotState PlotState)
    (g : PlotState → Except PlotState PlotState)
    (hg : ∀ t, (outState (g t)).rects = t.rects) :
    (outState (e >>= g)).rects = (outState e).rects := by
  cases e with
  | ok a => simpa using hg a
  | error a => simp

theorem rects_move (x y : ℚ) (a : Bool) : ∀ t : PlotState,
    (outState (move x y a t)).rects = t.rects := by
  intro t
  cases hc : t.hasContext <;> simp [move, updateLastPoint, emit, hc]

theorem rects_line (x y : ℚ) : ∀ t : PlotState,
    (outState (line x y t)).rects = t.rects := by
  intro t
  cases hc : t.hasContext <;> simp [line, updateLastPoint, emit, hc]

theorem rects_hline (x : ℚ) : ∀ t : PlotState,
    (outState (hline x t)).rects = t.rects := by
  intro t
  exact rects_line x 0 t

theorem rects_vline (y : ℚ) : ∀ t : PlotState,
    (outState (vline y t)).rects = t.rects := by
  intro t
  exact rects_line 0 y t

theorem rects_begin : ∀ t : PlotState,
    (outState (begin t)).rects = t.rects := by
  intro t
  cases hc : t.hasContext <;> simp [begin, emit, hc]

theorem rects_start : ∀ t : PlotState,
    (outState (start t)).rects = t.rects := by
  intro t
  rw [start, rects_outState_bind _ _ rects_begin]
  exact rects_move 0 0 false t

theorem rects_endPath (b : Bool) : ∀ t : PlotState,
    (outState (endPath b t)).rects = t.rects := by
  intro t
  cases hc : t.hasContext
  · simp [endPath, emit, hc]
  · cases hb : b <;> cases hd : t.isDrawing <;>
      simp [endPath, emit, hc, hb, hd]

theorem rects_es (r : ℚ) : ∀ t : PlotState,
    (outState (es r t)).rects = t.rects := by
  intro t
  cases hc : t.hasContext <;>
    simp [es, move, updateLastPoint, emit, hc]

theorem rects_sw (r : ℚ) : ∀ t : PlotState,
    (outState (sw r t)).rects = t.rects := by
  intro t
  cases hc : t.hasContext <;>
    simp [sw, move, updateLastPoint, emit, hc]

theorem rects_wn (r : ℚ) : ∀ t : PlotState,
    (outState (wn r t)).rects = t.rects := by
  intro t
  cases hc : t.hasContext <;>
    simp [wn, move, updateLastPoint, emit, hc]

theorem rects_ne (r : ℚ) : ∀ t : PlotState,
    (outState (ne r t)).rects = t.rects := by
  intro t
  cases hc : t.hasContext <;>
    simp [ne, move, updateLastPoint, emit, hc]

theorem framePreserved_refl (s : PlotState) : framePreserved s s := by
  simp [framePreserved]

theorem framePreserved_trans {s t u : PlotState}
    (h1 : framePreserved s t) (h2 : framePreserved t u) : framePreserved s u := by
  obtain ⟨a1, b1, c1, d1, e1, f1⟩ := h1
  obtain ⟨a2, b2, c2, d2, e2, f2⟩ := h2
  exact ⟨a2.trans a1, b2.trans b1, c2.trans c1, d2.trans d1, e2.trans e1,
    fun h => f1 (f2 h)⟩

theorem frame_outState_bind (e : Except PlotState PlotState)
    (g : PlotState → Except PlotState PlotState) {s : PlotState}
    (he : framePreserved s (outState e))
    (hg : ∀ t, framePreserved t (outState (g t))) :
    framePreserved s (outState (e >>= g)) := by
  cases e with
  | ok a => exact framePreserved_trans (by simpa using he) (by simpa using hg a)
  | error a => simpa using he

theorem frame_move (x y : ℚ) (a : Bool) : ∀ t : PlotState,
    framePreserved t (outState (move x y a t)) := by
  intro t
  cases hc : t.hasContext <;>
    simp [move, updateLastPoint, emit, hc, framePreserved]

theorem frame_hmove (x : ℚ) : ∀ t : PlotState,
    framePreserved t (outState (hmove x t)) := by
  intro t
  exact frame_move x 0 false t

theorem frame_vmove (y : ℚ) : ∀ t : PlotState,
    framePreserved t (outState (vmove y t)) := by
  intro t
  exact frame_move 0 y false t

theorem frame_home : ∀ t : PlotState,
    framePreserved t (outState (home t)) := by
  intro t
  cases hc : t.hasContext <;>
    simp [home, updateLastPoint, emit, hc, framePreserved]

theorem frame_line (x y : ℚ) : ∀ t : PlotState,
    framePreserved t (outState (line x y t)) := by
  intro t
  cases hc : t.hasContext <;>
    simp [line, updateLastPoint, emit, hc, framePreserved]

theorem frame_hline (x : ℚ) : ∀ t : PlotState,
    framePreserved t (outState (hline x t)) := by
  intro t
  exact frame_line x 0 t

theorem frame_vline (y : ℚ) : ∀ t : PlotState,
    framePreserved t (outState (vline y t)) := by
  intro t
  exact frame_line 0 y t

theorem frame_stroke : ∀ t : PlotState,
    framePreserved t (outState (stroke t)) := by
  intro t
  cases hc : t.hasContext <;> simp [stroke, emit, hc, framePreserved]

theorem frame_fill : ∀ t : PlotState,
    framePreserved t (outState (fill t)) := by
  intro t
  cases hc : t.hasContext <;> simp [fill, emit, hc, framePreserved]

theorem frame_arc (x y r a1 a2 : ℚ) : ∀ t : PlotState,
    framePreserved t (outState (arc x y r a1 a2 t)) := by
  intro t
  cases hc : t.hasContext <;> simp [arc, globalC, hc, framePreserved]

theorem frame_arcTo (ax ay r : ℚ) : ∀ t : PlotState,
    framePreserved t (outState (arcTo ax ay r t)) := by
  intro t
  cases hc : t.hasContext <;>
    simp [arcTo, updateLastPoint, emit, hc, framePreserved]

theorem frame_ne (r : ℚ) : ∀ t : PlotState,
    framePreserved t (outState (ne r t)) := by
  intro t
  cases hc : t.hasContext <;>
    simp [ne, move, updateLastPoint, emit, hc, framePreserved]

theorem frame_se (r : ℚ) : ∀ t : PlotState,
    framePreserved t (outState (se r t)) := by
  intro t
  cases hc : t.hasContext <;>
    simp [se, move, updateLastPoint, emit, hc, framePreserved]

theorem frame_nw (r : ℚ) : ∀ t : PlotState,
    framePreserved t (outState (nw r t)) := by
  intro t
  cases hc : t.hasContext <;>
    simp [nw, move, updateLastPoint, emit, hc, framePreserved]

theorem frame_sw (r : ℚ) : ∀ t : PlotState,
    framePreserved t (outState (sw r t)) := by
  intro t
  cases hc : t.hasContext <;>
    simp [sw, move, updateLastPoint, emit, hc, framePreserved]

theorem frame_wn (r : ℚ) : ∀ t : PlotState,
    framePreserved t (outState (wn r t)) := by
  intro t
  cases hc : t.hasContext <;>
    simp [wn, move, updateLastPoint, emit, hc, framePreserved]

theorem frame_ws (r : ℚ) : ∀ t : PlotState,
    framePreserved t (outState (ws r t)) := by
  intro t
  cases hc : t.hasContext <;>
    simp [ws, move, updateLastPoint, emit, hc, framePreserved]

theorem frame_en (r : ℚ) : ∀ t : PlotState,
    framePreserved t (outState (en r t)) := by
  intro t
  cases hc : t.hasContext <;>
    simp [en, move, updateLastPoint, emit, hc, framePreserved]

theorem frame_es (r : ℚ) : ∀ t : PlotState,
    framePreserved t (outState (es r t)) := by
  intro t
  cases hc : t.hasContext <;>
    simp [es, move, updateLastPoint, emit, hc, framePreserved]

theorem frame_centerRect (w : ℚ) (h : Option ℚ) : ∀ t : PlotState,
    framePreserved t (outState (centerRect w h t)) := by
  intro t
  cases hv : t.hasCanvas <;> cases hc : t.hasContext <;>
    simp [centerRect, getCenter, emit, hv, hc, framePreserved]

theorem frame_setLineColor (c : String) : ∀ t : PlotState,
    framePreserved t (outState (setLineColor c t)) := by
  intro t
  cases hc : t.hasContext <;> simp [setLineColor, emit, hc, framePreserved]

theorem frame_setLineWidth (w : ℚ) : ∀ t : PlotState,
    framePreserved t (outState (setLineWidth w t)) := by
  intro t
  cases hc : t.hasContext <;> simp [setLineWidth, emit, hc, framePreserved]

theorem frame_center : ∀ t : PlotState,
    framePreserved t (outState (center t)) := by
  intro t
  cases hv : t.hasCanvas <;> cases hc : t.hasContext <;>
    simp [center, getCenter, move, updateLastPoint, emit, hv, hc, framePreserved]

theorem frame_begin : ∀ t : PlotState,
    framePreserved t (outState (begin t)) := by
  intro t
  cases hc : t.hasContext <;> simp [begin, emit, hc, framePreserved]

theorem frame_start : ∀ t : PlotState,
    framePreserved t (outState (start t)) := by
  intro t
  cases hc : t.hasContext <;>
    simp [start, move, begin, updateLastPoint, emit, hc, framePreserved]

theorem frame_endPath (b : Bool) : ∀ t : PlotState,
    framePreserved t (outState (endPath b t)) := by
  intro t
  cases hc : t.hasContext
  · simp [endPath, hc, framePreserved]
  · cases hb : b <;> cases hd : t.isDrawing <;>
      simp [endPath, emit, hc, hb, hd, framePreserved]

theorem frame_reset : ∀ t : PlotState,
    framePreserved t (outState (reset t)) := by
  intro t
  cases hv : t.hasCanvas <;> simp [reset, emit, hv, framePreserved]

theorem frame_point : ∀ t : PlotState,
    framePreserved t (outState (point t)) := by
  intro t
  cases hc : t.hasContext
  · simp [point, begin, hc, framePreserved]
  · cases hd : t.isDrawing <;>
      simp [point, begin, endPath, emit, hc, hd, framePreserved]

theorem frame_roundRect (w h r : ℚ) (xo yo : Option ℚ) (id : String) :
    ∀ t : PlotState, framePreserved t (outState (roundRect w h r xo yo id t)) := by
  intro t
  cases hv : t.hasCanvas
  · simp [roundRect, getCenter, hv, framePreserved]
  · rw [roundRect]
    simp only [getCenter, hv, if_true]
    refine frame_outState_bind _ _ ?_ (frame_endPath false)
    refine frame_outState_bind _ _ ?_ (frame_ne r)
    refine frame_outState_bind _ _ ?_ (frame_vline (-h + r + r))
    refine frame_outState_bind _ _ ?_ (frame_wn r)
    refine frame_outState_bind _ _ ?_ (frame_hline (-w + r + r))
    refine frame_outState_bind _ _ ?_ (frame_sw r)
    refine frame_outState_bind _ _ ?_ (frame_vline (h - r - r))
    refine frame_outState_bind _ _ ?_ (frame_es r)
    refine frame_outState_bind _ _ ?_ (frame_hline (w - r - r))
    refine frame_outState_bind _ _ ?_ (frame_move _ _ true)
    refine framePreserved_trans ?_ (frame_start _)
    simp [framePreserved, hv]

/-- What `roundRect` leaves in the registry: the new descriptor — with the
falsy-`||` defaults applied — consed in front of the prior entries, for
any plotter whose canvas lookup succeeded, whether or not the drawing
chain then throws on a missing context. -/
theorem roundRect_rects (w h r : ℚ) (xo yo : Option ℚ) (id : String)
    (s : PlotState) (hcv : s.hasCanvas = true) :
    (outState (roundRect w h r xo yo id s)).rects
      = (id, ⟨w, h, r, jsOrQ xo (s.canvasWidth / 2 - w / 2 + r),
              jsOrQ yo (s.canvasHeight / 2 - h / 2)⟩) :: s.rects := by
  rw [roundRect]
  simp only [getCenter, hcv, if_true]
  rw [rects_outState_bind _ _ (rects_endPath false),
    rects_outState_bind _ _ (rects_ne r),
    rects_outState_bind _ _ (rects_vline (-h + r + r)),
    rects_outState_bind _ _ (rects_wn r),
    rects_outState_bind _ _ (rects_hline (-w + r + r)),
    rects_outState_bind _ _ (rects_sw r),
    rects_outState_bind _ _ (rects_vline (h - r - r)),
    rects_outState_bind _ _ (rects_es r),
    rects_outState_bind _ _ (rects_hline (w - r - r)),
    rects_outState_bind _ _ (rects_move _ _ true),
    rects_start]

/-- C6: `roundRect(width, height, radius, x, y, id)` records under
`rects[id]` the descriptor `{width, height, radius, x, y}`; omitted
coordinates default to `center.x - width/2 + radius` and
`center.y - height/2` with the midpoint taken at call time.  In
particular `roundRect(100, 50, 10, undefined, undefined, "box1")` stores
`{100, 50, 10, cx - 40, cy - 25}`, and a second call with the same id
overwrites the entry. -/
theorem roundRect_records (s : PlotState) (w h r w2 h2 r2 : ℚ) (id : String)
    (hcv : s.hasCanvas = true) :
    lookupRect (outState (roundRect w h r none none id s)).rects id
      = some ⟨w, h, r, s.canvasWidth / 2 - w / 2 + r, s.canvasHeight / 2 - h / 2⟩ ∧
    lookupRect (outState (roundRect 100 50 10 none none "box1" s)).rects "box1"
      = some ⟨100, 50, 10, s.canvasWidth / 2 - 40, s.canvasHeight / 2 - 25⟩ ∧
    lookupRect
        (outState (roundRect w2 h2 r2 none none id
          (outState (roundRect w h r none none id s)))).rects id
      = some ⟨w2, h2, r2, s.canvasWidth / 2 - w2 / 2 + r2,
              s.canvasHeight / 2 - h2 / 2⟩ := by
  have hfr := frame_roundRect w h r none none id s
  refine ⟨?_, ?_, ?_⟩
  · rw [roundRect_rects w h r none none id s hcv]
    simp [lookupRect, jsOrQ]
  · rw [roundRect_rects 100 50 10 none none "box1" s hcv]
    simp [lookupRect, jsOrQ]
    constructor <;> ring
  · rw [roundRect_rects w2 h2 r2 none none id
      (outState (roundRect w h r none none id s)) (by rw [hfr.2.1, hcv])]
    simp [lookupRect, jsOrQ, hfr.2.2.2.1, hfr.2.2.2.2.1]

/-- C6 (witness): on the 200×100 plotter the stored descriptor is
`{100, 50, 10, 100 - 40, 50 - 25} = {100, 50, 10, 60, 25}`. -/
theorem roundRect_records_witness :
    okPlot.hasCanvas = true ∧
    lookupRect (outState (roundRect 100 50 10 none none "box1" okPlot)).rects "box1"
      = some ⟨100, 50, 10, 60, 25⟩ := by
  refine ⟨by decide, ?_⟩
  have h := (roundRect_records okPlot 100 50 10 1 1 1 "box1" (by decide)).2.1
  rw [h]
  norm_num [okPlot, mkPlot, emit, jsOrS, jsOrQ]

theorem frame_applyOp (op : Op) (s : PlotState) : framePreserved s (applyOp op s) := by
  cases op with
  | move x y a => exact frame_move x y a s
  | hmove x => exact frame_hmove x s
  | vmove y => exact frame_vmove y s
  | home => exact frame_home s
  | line x y => exact frame_line x y s
  | hline x => exact frame_hline x s
  | vline y => exact frame_vline y s
  | stroke => exact frame_stroke s
  | fill => exact frame_fill s
  | arc x y r a1 a2 => exact frame_arc x y r a1 a2 s
  | arcTo ax ay r => exact frame_arcTo ax ay r s
  | ne r => exact frame_ne r s
  | se r => exact frame_se r s
  | nw r => exact frame_nw r s
  | sw r => exact frame_sw r s
  | wn r => exact frame_wn r s
  | ws r => exact frame_ws r s
  | en r => exact frame_en r s
  | es r => exact frame_es r s
  | centerRect w h => exact frame_centerRect w h s
  | setLineColor c => exact frame_setLineColor c s
  | setLineWidth w => exact frame_setLineWidth w s
  | center => exact frame_center s
  | begin => exact frame_begin s
  | start => exact frame_start s
  | endPath b => exact frame_endPath b s
  | reset => exact frame_reset s
  | point => exact frame_point s
  | roundRect w h r x y id => exact frame_roundRect w h r x y id s

theorem frame_runOps (ops : List Op) : ∀ s : PlotState,
    framePreserved s (runOps ops s) := by
  induction ops with
  | nil => exact fun s => framePreserved_refl s
  | cons op rest ih =>
      exact fun s => framePreserved_trans (frame_applyOp op s) (ih (applyOp op s))

/-- C7: in every state reachable from any construction by any sequence of
`Plot` method calls, `origin` still equals `(0, 0)` — no method ever
reassigns it, and every `lastPoint` update allocates a fresh point rather
than mutating the object `origin` initially aliased — and therefore
`home()` sets `lastPoint` to `(0, 0)` regardless of the prior pen
position. -/
theorem home_reaches_origin (canvasFound contextOk : Bool) (cw ch : ℚ)
    (col : Option String) (lw : Option ℚ) (ops : List Op) :
    (runOps ops (mkPlot canvasFound contextOk cw ch col lw)).origin = ⟨0, 0⟩ ∧
    (outState (home (runOps ops (mkPlot canvasFound contextOk cw ch col lw)))).lastPoint
      = ⟨0, 0⟩ := by
  have h0 : (mkPlot canvasFound contextOk cw ch col lw).origin = ⟨0, 0⟩ := by
    cases canvasFound <;> cases contextOk <;> simp [mkPlot, emit]
  have ho : (runOps ops (mkPlot canvasFound contextOk cw ch col lw)).origin = ⟨0, 0⟩ :=
    ((frame_runOps ops (mkPlot canvasFound contextOk cw ch col lw)).1).trans h0
  refine ⟨ho, ?_⟩
  cases hc : (runOps ops (mkPlot canvasFound contextOk cw ch col lw)).hasContext <;>
    simp [home, updateLastPoint, emit, hc, ho]

/-- C8: `arc` leaves `lastPoint` unchanged for all arguments and states
(its throw happens before any mutation), and it is the only path-drawing
primitive of §4.2 that does not update the pen: `line`, `hline`, `vline`,
`arcTo` and all eight corner helpers each move `lastPoint` on a validly
constructed plotter. -/
theorem arc_keeps_lastPoint (s : PlotState) (x y r a1 a2 : ℚ) :
    (outState (arc x y r a1 a2 s)).lastPoint = s.lastPoint ∧
    ((outState (line 1 1 okPlot)).lastPoint ≠ okPlot.lastPoint ∧
     (outState (hline 1 okPlot)).lastPoint ≠ okPlot.lastPoint ∧
     (outState (vline 1 okPlot)).lastPoint ≠ okPlot.lastPoint ∧
     (outState (arcTo 1 1 5 okPlot)).lastPoint ≠ okPlot.lastPoint ∧
     (outState (ne 1 okPlot)).lastPoint ≠ okPlot.lastPoint ∧
     (outState (se 1 okPlot)).lastPoint ≠ okPlot.lastPoint ∧
     (outState (nw 1 okPlot)).lastPoint ≠ okPlot.lastPoint ∧
     (outState (sw 1 okPlot)).lastPoint ≠ okPlot.lastPoint ∧
     (outState (wn 1 okPlot)).lastPoint ≠ okPlot.lastPoint ∧
     (outState (ws 1 okPlot)).lastPoint ≠ okPlot.lastPoint ∧
     (outState (en 1 okPlot)).lastPoint ≠ okPlot.lastPoint ∧
     (outState (es 1 okPlot)).lastPoint ≠ okPlot.lastPoint) := by
  constructor
  · cases hc : s.hasContext <;> simp [arc, globalC, hc]
  · refine ⟨?_, ?_, ?_, ?_, ?_, ?_, ?_, ?_, ?_, ?_, ?_, ?_⟩ <;>
      norm_num [okPlot, mkPlot, line, hline, vline, arcTo, ne, se, nw, sw, wn, ws,
        en, es, move, updateLastPoint, emit, jsOrS, jsOrQ, Point.mk.injEq]

/-- C9: `isDrawing` is `false` in every state reachable from construction
by any sequence of `Plot` method calls: the constructor initializes it to
`false` and no method ever sets it (`end()` only clears it). -/
theorem isDrawing_stays_false (canvasFound contextOk : Bool) (cw ch : ℚ)
    (col : Option String) (lw : Option ℚ) (ops : List Op) :
    (mkPlot canvasFound contextOk cw ch col lw).isDrawing = false ∧
    (runOps ops (mkPlot canvasFound contextOk cw ch col lw)).isDrawing = false := by
  have h0 : (mkPlot canvasFound contextOk cw ch col lw).isDrawing = false := by
    cases canvasFound <;> cases contextOk <;> simp [mkPlot, emit]
  refine ⟨h0, ?_⟩
  have himp := (frame_runOps ops (mkPlot canvasFound contextOk cw ch col lw)).2.2.2.2.2
  cases hd : (runOps ops (mkPlot canvasFound contextOk cw ch col lw)).isDrawing
  · rfl
  · exact absurd (himp hd) (by simp [h0])

/-- C10: passing the explicit coordinate `0` for `x` and `y` to
`roundRect` behaves exactly like omitting them — the `x || default`
idiom treats `0` as falsy — so the rectangle is positioned and recorded
at the centered defaults, not at `(0, 0)`. -/
theorem roundRect_zero_is_default (w h r : ℚ) (id : String) (s : PlotState)
    (hcv : s.hasCanvas = true) :
    roundRect w h r (some 0) (some 0) id s = roundRect w h r none none id s ∧
    lookupRect (outState (roundRect w h r (some 0) (some 0) id s)).rects id
      = some ⟨w, h, r, s.canvasWidth / 2 - w / 2 + r, s.canvasHeight / 2 - h / 2⟩ := by
  have heq : roundRect w h r (some 0) (some 0) id s = roundRect w h r none none id s := by
    rw [roundRect, roundRect]
    cases hg : getCenter s <;> simp [jsOrQ]
  refine ⟨heq, ?_⟩
  rw [heq, roundRect_rects w h r none none id s hcv]
  simp [lookupRect, jsOrQ]

/-- C10 (witness): on the 200×100 plotter, `roundRect(100, 50, 10, 0, 0,
"box1")` records the centered default position `(60, 25)`. -/
theorem roundRect_zero_is_default_witness :
    okPlot.hasCanvas = true ∧
    lookupRect (outState (roundRect 100 50 10 (some 0) (some 0) "box1" okPlot)).rects "box1"
      = some ⟨100, 50, 10, 60, 25⟩ := by
  refine ⟨by decide, ?_⟩
  have h := (roundRect_zero_is_default 100 50 10 "box1" okPlot (by decide)).2
  rw [h]
  norm_num [okPlot, mkPlot, emit, jsOrS, jsOrQ]
